import Mathlib

/-!
Verification of the job-lifecycle client of the ai-financial-modeler
frontend (frontend/app/layout.tsx, plus the older page variant embedded in
deploy_helper.bat).  The React component is shallowly embedded: the pieces
of component state the claims touch become a `ClientState` record, the
poll useEffect becomes a step function on that record driven by an explicit
list of poll responses, and the submit / download / export handlers become
pure functions from their inputs and the HTTP outcome to the issued
requests and the resulting state.
-/

/-- Result of `validation` field on a job status response. -/
structure ValidationResult where
  is_valid : Bool
  errors : List String
  deriving DecidableEq

/-- The JobStatus interface of layout.tsx: one snapshot of a backend job as
returned by the job status endpoint.  `status` is a plain string in the
source; `progress` is a JSON number (an integer per the spec). -/
structure JobStatus where
  job_id : String
  status : String
  progress : Int
  message : String
  company_name : Option String := none
  industry : Option String := none
  download_url : Option String := none
  filename : Option String := none
  validation : Option ValidationResult := none
  deriving DecidableEq

/-- A status string is terminal exactly when the source compares it against
the literals "completed" and "failed". -/
def isTerminal (s : String) : Bool :=
  s == "completed" || s == "failed"

/-- The slice of the Home component state that the job lifecycle touches,
together with an explicit model of the poll timer (`timerActive`), a count
of issued poll calls (`pollCount`) and a count of console.error logs from
the poll catch branch (`errorLog`). -/
structure ClientState where
  jobStatus : Option JobStatus := none
  error : Option String := none
  isLoading : Bool := false
  timerActive : Bool := false
  pollCount : Nat := 0
  errorLog : Nat := 0
  deriving DecidableEq

/-- The poll useEffect body (layout.tsx lines 712-733): when the held
snapshot is absent or terminal it sets isLoading false and installs no
interval; otherwise it installs the repeating 1-second interval. -/
def pollEffect (s : ClientState) : ClientState :=
  match s.jobStatus with
  | none => { s with isLoading := false, timerActive := false }
  | some js =>
      if isTerminal js.status then { s with isLoading := false, timerActive := false }
      else { s with timerActive := true }

/-- One interval tick of the poll useEffect.  A tick only happens while the
interval is installed; it issues one getJobStatus call.  On a transport
failure the catch branch logs to console.error and changes nothing else.
On a response the snapshot is replaced; a terminal status additionally
clears isLoading and the interval (the in-tick clearInterval together with
the effect re-run on the changed status). -/
def pollTick (s : ClientState) (r : Except String JobStatus) : ClientState :=
  if s.timerActive then
    match r with
    | Except.error _ =>
        { s with pollCount := s.pollCount + 1, errorLog := s.errorLog + 1 }
    | Except.ok st =>
        if isTerminal st.status then
          { s with pollCount := s.pollCount + 1, jobStatus := some st,
                   isLoading := false, timerActive := false }
        else
          { s with pollCount := s.pollCount + 1, jobStatus := some st }
  else s

/-- Run a sequence of timer ticks with the given poll outcomes. -/
def runTicks (s : ClientState) : List (Except String JobStatus) → ClientState
  | [] => s
  | r :: rs => runTicks (pollTick s r) rs

/-- The sequence of snapshots held by the client after each tick. -/
def heldTrace (s : ClientState) : List (Except String JobStatus) → List (Option JobStatus)
  | [] => []
  | r :: rs => (pollTick s r).jobStatus :: heldTrace (pollTick s r) rs

/-- Modelled from the spec: the backend (not under src/) mutates a job so
that progress is monotonically non-decreasing while status is
pending / running (spec section 3).  This predicate states that property of
the successive successful poll responses, relative to a reference snapshot:
each successful read may not show smaller progress than the previous
non-terminal one. -/
def respectsB : Option JobStatus → List (Except String JobStatus) → Bool
  | _, [] => true
  | o, Except.error _ :: rs => respectsB o rs
  | none, Except.ok st :: rs => respectsB (some st) rs
  | some j, Except.ok st :: rs =>
      (isTerminal j.status || decide (j.progress ≤ st.progress)) && respectsB (some st) rs

/-- Progress does not decrease between two consecutive held snapshots while
the earlier one is non-terminal. -/
def pairMonoB : Option JobStatus → Option JobStatus → Bool
  | some x, some y => isTerminal x.status || decide (x.progress ≤ y.progress)
  | _, _ => true

/-- A snapshot trace is monotone when every consecutive pair is. -/
def monoTraceB : List (Option JobStatus) → Bool
  | a :: b :: rest => pairMonoB a b && monoTraceB (b :: rest)
  | _ => true

/-- A stock entry as listed or searched (layout.tsx Stock interface). -/
structure Stock where
  symbol : String
  name : String
  sector : String
  sector_code : Option String := none
  deriving DecidableEq

/-- The LBO assumption fields sent to the LBO generation endpoint, mirroring
the lboAssumptions state object and its initial values.  JS numbers become
rationals, the integer holding period an Int. -/
structure LboAssumptions where
  holding_period : Int := 5
  entry_multiple : ℚ := 8
  exit_multiple : ℚ := 8
  senior_debt_multiple : ℚ := 3
  senior_interest_rate : ℚ := 0.08
  mezz_debt_multiple : ℚ := 1.5
  mezz_interest_rate : ℚ := 0.12
  sub_debt_multiple : ℚ := 0.5
  sub_interest_rate : ℚ := 0.14
  revenue_growth : ℚ := 0.08
  ebitda_margin : ℚ := 0.25
  deriving DecidableEq

/-- The M&A assumption fields sent to the M&A generation endpoint, mirroring
the maAssumptions state object and its initial values (layout.tsx 505-513). -/
structure MAAssumptions where
  offer_premium : ℚ := 0.25
  percent_stock : ℚ := 0.50
  percent_cash : ℚ := 0.50
  synergies_revenue : ℚ := 0
  synergies_cost : ℚ := 0
  acquirer_growth_rate : ℚ := 0.05
  target_growth_rate : ℚ := 0.05
  deriving DecidableEq

/-- Historical income statement block of the raw-data request. -/
structure IncomeStatementData where
  revenue : Option ℚ := none
  ebitda : Option ℚ := none
  net_income : Option ℚ := none
  deriving DecidableEq

/-- Historical balance sheet block of the raw-data request. -/
structure BalanceSheetData where
  total_assets : Option ℚ := none
  total_liabilities : Option ℚ := none
  deriving DecidableEq

/-- Assumption block of the raw-data request. -/
structure RawAssumptions where
  revenue_growth : Option ℚ := none
  ebitda_margin : Option ℚ := none
  tax_rate : Option ℚ := none
  deriving DecidableEq

/-- The RawModelData payload of the older page variant (deploy_helper.bat
embedded source): the raw-financial-data request body. -/
structure RawModelData where
  company_name : String
  industry : String
  forecast_years : Nat
  income_statement : IncomeStatementData := {}
  balance_sheet : BalanceSheetData := {}
  assumptions : RawAssumptions := {}
  deriving DecidableEq

/-- The outbound generation requests the submit handlers can issue, carrying
the exact body fields the source serialises. -/
inductive GenRequest where
  | generate (symbol exchange : String) (forecast_years : Nat) (model_types : List String)
  | generateRaw (data : RawModelData)
  | generateLBO (symbol exchange : String) (a : LboAssumptions)
  | generateMA (acquirer_symbol target_symbol exchange : String) (a : MAAssumptions)
  | uploadExcel (fileName company_name industry : String) (forecast_years : Nat)
  deriving DecidableEq

/-- The API path each request is POSTed to. -/
def requestPath : GenRequest → String
  | GenRequest.generate _ _ _ _ => "/api/model/generate"
  | GenRequest.generateRaw _ => "/api/model/generate-raw"
  | GenRequest.generateLBO _ _ _ => "/api/model/generate-lbo"
  | GenRequest.generateMA _ _ _ _ => "/api/model/generate-ma"
  | GenRequest.uploadExcel _ _ _ _ => "/api/model/upload-excel"

/-- The backend response to a generation request: HTTP success flag and
status code, the job id of the created job, and for the upload endpoint an
optional error detail body. -/
structure HttpResp where
  ok : Bool
  statusCode : Nat
  job_id : String
  detail : Option String := none
  deriving DecidableEq

/-- The tab selector of the current page (layout.tsx TabType). -/
inductive Tab where
  | stocks
  | excel
  | lbo
  | ma
  | compare
  deriving DecidableEq

/-- The component state feeding handleGenerate: active tab, selections and
assumption objects. -/
structure SubmitInputs where
  activeTab : Tab
  selectedStock : Option Stock := none
  forecastYears : Nat := 5
  excelFile : Option String := none
  excelCompanyName : String := ""
  excelIndustry : String := "general"
  lbo : LboAssumptions := {}
  acquirerStock : Option Stock := none
  targetStock : Option Stock := none
  ma : MAAssumptions := {}

/-- The JS String trim used by the raw-variant guard: strip whitespace from
both ends. -/
def jsTrim (s : String) : String :=
  String.mk (((s.data.dropWhile Char.isWhitespace).reverse.dropWhile
    Char.isWhitespace).reverse)

/-- The regex replace on file.name in handleGenerate: strip a trailing
".xlsx" or ".xls" from the file name. -/
def stripExcelExt (name : String) : String :=
  if name.endsWith ".xlsx" then name.dropRight 5
  else if name.endsWith ".xls" then name.dropRight 4
  else name

/-- The error message uploadExcelFile throws on a non-success response:
the detail field of the error body when truthy, else the status code. -/
def uploadFailMsg (resp : HttpResp) : String :=
  match resp.detail with
  | some d => if d = "" then "Upload failed: " ++ toString resp.statusCode else d
  | none => "Upload failed: " ++ toString resp.statusCode

/-- The snapshot handleGenerate installs on success: setJobStatus with the
job id, status pending, progress 0 and the starting message. -/
def pendingSnapshot (jid : String) : JobStatus :=
  { job_id := jid, status := "pending", progress := 0, message := "Starting..." }

/-- Shared tail of every submit branch: issue the request; on success set
the pending snapshot (progress 0), on failure set the caught error message
and stop loading. -/
def finishSubmit (st1 : ClientState) (req : GenRequest) (failMsg : String)
    (resp : HttpResp) : List GenRequest × ClientState :=
  if resp.ok then
    ([req], { st1 with jobStatus := some (pendingSnapshot resp.job_id) })
  else
    ([req], { st1 with error := some failMsg, isLoading := false })

/-- The branch body of handleGenerate after the early-return guards: the
setters ran, then the if / else-if chain picks the request to issue or, on
the compare tab, returns with nothing issued. -/
def submitBody (inp : SubmitInputs) (st1 : ClientState) (resp : HttpResp) :
    List GenRequest × ClientState :=
  match inp.activeTab, inp.selectedStock, inp.excelFile, inp.acquirerStock,
      inp.targetStock with
  | Tab.stocks, some s, _, _, _ =>
      finishSubmit st1
        (GenRequest.generate s.symbol "NSE" inp.forecastYears ["three_statement", "dcf"])
        "Failed to start model generation" resp
  | Tab.excel, _, some f, _, _ =>
      finishSubmit st1
        (GenRequest.uploadExcel f
          (if inp.excelCompanyName = "" then stripExcelExt f else inp.excelCompanyName)
          inp.excelIndustry inp.forecastYears)
        (uploadFailMsg resp) resp
  | Tab.lbo, some s, _, _, _ =>
      finishSubmit st1 (GenRequest.generateLBO s.symbol "NSE" inp.lbo)
        "Failed to start LBO model generation" resp
  | Tab.ma, _, _, some a, some t =>
      finishSubmit st1 (GenRequest.generateMA a.symbol t.symbol "NSE" inp.ma)
        "Failed to start M&A model generation" resp
  | _, _, _, _, _ => ([], st1)

/-- handleGenerate of the current page (layout.tsx 628-677): the four
early-return guards, then the setters, then the branch chain. -/
def handleGenerate (inp : SubmitInputs) (st : ClientState) (resp : HttpResp) :
    List GenRequest × ClientState :=
  if inp.activeTab = Tab.stocks ∧ inp.selectedStock = none then ([], st)
  else if inp.activeTab = Tab.excel ∧ inp.excelFile = none then ([], st)
  else if inp.activeTab = Tab.lbo ∧ inp.selectedStock = none then ([], st)
  else if inp.activeTab = Tab.ma ∧ (inp.acquirerStock = none ∨ inp.targetStock = none)
    then ([], st)
  else submitBody inp { st with isLoading := true, error := none, jobStatus := none } resp

/-- The tab selector of the older page variant. -/
inductive OldTab where
  | stocks
  | raw
  deriving DecidableEq

/-- The branch tail of the older handleGenerate: the fixed catch message. -/
def finishSubmitOld (st1 : ClientState) (req : GenRequest) (resp : HttpResp) :
    List GenRequest × ClientState :=
  finishSubmit st1 req "Failed to start model generation. Please try again." resp

/-- handleGenerate of the older page variant (deploy_helper.bat embedded
source, lines 271-295): guards for the stock and raw tabs, then either the
stock request or the raw-data request. -/
def handleGenerateOld (tab : OldTab) (selectedStock : Option Stock)
    (forecastYears : Nat) (rawData : RawModelData) (st : ClientState)
    (resp : HttpResp) : List GenRequest × ClientState :=
  if tab = OldTab.stocks ∧ selectedStock = none then ([], st)
  else if tab = OldTab.raw ∧ jsTrim rawData.company_name = "" then ([], st)
  else
    match tab, selectedStock with
    | OldTab.stocks, some s =>
        finishSubmitOld { st with isLoading := true, error := none, jobStatus := none }
          (GenRequest.generate s.symbol "NSE" forecastYears ["three_statement", "dcf"])
          resp
    | _, _ =>
        finishSubmitOld { st with isLoading := true, error := none, jobStatus := none }
          (GenRequest.generateRaw rawData) resp

/-- A resolved fetch response for the binary download and export calls:
HTTP success flag, status code and the blob body. -/
structure HttpBlobResponse where
  ok : Bool
  statusCode : Nat
  blobContent : String
  deriving DecidableEq

/-- A file materialised through the created anchor element: the a.download
attribute and the blob it points at. -/
structure SavedFile where
  name : String
  content : String
  deriving DecidableEq

/-- The a.download expression of the Excel download handler: the job
filename when truthy, else the default name. -/
def downloadFileName (filename : Option String) : String :=
  match filename with
  | some f => if f = "" then "financial_model.xlsx" else f
  | none => "financial_model.xlsx"

/-- The Excel download onClick handler (layout.tsx 1896-1911): the anchor is
rendered only when a download URL is present; the handler fetches it,
takes the blob of whatever response arrives (no ok check and no catch) and
saves it under the job filename or the default name.  Result: the alerts
shown and the file saved. -/
def excelDownloadClick (js : JobStatus) (resp : Except String HttpBlobResponse) :
    List String × Option SavedFile :=
  match js.download_url with
  | none => ([], none)
  | some _ =>
      match resp with
      | Except.error _ => ([], none)
      | Except.ok r =>
          ([], some { name := downloadFileName js.filename, content := r.blobContent })

/-- downloadExportFile (layout.tsx 331-344): fetch the export endpoint,
throw on a non-success response, else save the blob as model.(format). -/
def downloadExportFile (format : String) (resp : Except String HttpBlobResponse) :
    Except String SavedFile :=
  match resp with
  | Except.error m => Except.error m
  | Except.ok r =>
      if r.ok then Except.ok { name := "model." ++ format, content := r.blobContent }
      else Except.error ("Export failed: " ++ format)

/-- The alert text of the PDF and PowerPoint export button catch branches. -/
def exportAlertMsg (format : String) : String :=
  if format = "pdf" then "PDF export failed. Please try again."
  else "PowerPoint export failed. Please try again."

/-- The export button onClick handlers (layout.tsx 1918-1945): await
downloadExportFile and alert on any thrown error.  Result: the alerts shown
and the file saved. -/
def exportClick (format : String) (resp : Except String HttpBlobResponse) :
    List String × Option SavedFile :=
  match downloadExportFile format resp with
  | Except.error _ => ([exportAlertMsg format], none)
  | Except.ok f => ([], some f)

/-- The parseFloat-with-default of the M&A stock-percentage input: a failed
parse or the falsy value 0 becomes the literal 50. -/
def editStockValue (input : Option ℚ) : ℚ :=
  match input with
  | none => 50
  | some x => if x = 0 then 50 else x

/-- The onChange handler of the M&A Stock percentage input (layout.tsx
1487-1499): set percent_stock to the parsed value over 100 and percent_cash
to its complement.  The Cash input is rendered disabled with no handler. -/
def editStockPercent (ma : MAAssumptions) (input : Option ℚ) : MAAssumptions :=
  { ma with percent_stock := editStockValue input / 100,
            percent_cash := 1 - editStockValue input / 100 }

/-- The add button of the compare search results (layout.tsx 1577-1596):
append the stock only when no selected stock has the same symbol and fewer
than 5 are selected. -/
def addCompareStock (l : List Stock) (s : Stock) : List Stock :=
  if (l.find? (fun x => x.symbol == s.symbol)).isNone && decide (l.length < 5) then
    l ++ [s]
  else l

/-- The remove button of a selected compare stock (layout.tsx 1603-1617):
keep only the stocks with a different symbol. -/
def removeCompareStock (l : List Stock) (sym : String) : List Stock :=
  l.filter (fun x => x.symbol != sym)

/-- The operations the compare selection list is mutated by. -/
inductive CompareOp where
  | add (s : Stock)
  | remove (sym : String)

/-- Apply one compare-list operation. -/
def applyCompareOp (l : List Stock) : CompareOp → List Stock
  | CompareOp.add s => addCompareStock l s
  | CompareOp.remove sym => removeCompareStock l sym

/-- Run a sequence of compare-list operations from the initial empty list. -/
def runCompareOps (ops : List CompareOp) : List Stock :=
  ops.foldl applyCompareOp []

/-- The compare-list invariant: symbols are pairwise distinct and at most 5
stocks are selected. -/
def compareInv (l : List Stock) : Prop :=
  (l.map (fun s => s.symbol)).Nodup ∧ l.length ≤ 5

/-- Concrete running snapshot used by witnesses. -/
def wRunning : JobStatus :=
  { job_id := "j1", status := "running", progress := 40, message := "working" }

/-- Concrete completed snapshot used by witnesses. -/
def wCompleted : JobStatus :=
  { job_id := "j1", status := "completed", progress := 100, message := "done" }

/-- Concrete stale snapshot delivered after completion in the C1 witness. -/
def wStale : JobStatus :=
  { job_id := "j1", status := "running", progress := 10, message := "stale" }

/-- Concrete pending snapshot used by witnesses. -/
def wPending : JobStatus :=
  { job_id := "j1", status := "pending", progress := 0, message := "Starting..." }

/-- Concrete mid-progress snapshots used by the C2 witness. -/
def wRun30 : JobStatus :=
  { job_id := "j1", status := "running", progress := 30, message := "a" }

/-- Concrete mid-progress snapshots used by the C2 witness. -/
def wRun70 : JobStatus :=
  { job_id := "j1", status := "running", progress := 70, message := "b" }

/-- Concrete client state holding the running snapshot with the timer on. -/
def wStateRunning : ClientState :=
  { jobStatus := some wRunning, isLoading := true, timerActive := true }

/-- Concrete client state holding the pending snapshot with the timer on. -/
def wStatePending : ClientState :=
  { jobStatus := some wPending, isLoading := true, timerActive := true }

/-- Concrete snapshot updates of the C3 witness. -/
def wRun60 : JobStatus :=
  { job_id := "j1", status := "running", progress := 60, message := "later" }

/-- The concrete response list of the C2 witness. -/
def wRespList : List (Except String JobStatus) :=
  [Except.error "net down", Except.ok wRun30, Except.ok wRun70, Except.ok wCompleted]

/-- Concrete TCS stock entry used by the C5 and C6 witnesses. -/
def wStockTCS : Stock :=
  { symbol := "TCS", name := "Tata Consultancy Services",
    sector := "Information Technology" }

/-- Concrete acquirer entry used by the C4 witness. -/
def wStockAcq : Stock :=
  { symbol := "ACQ", name := "Acquirer", sector := "it" }

/-- Concrete submit inputs: stock tab with TCS selected, 5 forecast years. -/
def wInpStocksTCS : SubmitInputs :=
  { activeTab := Tab.stocks, selectedStock := some wStockTCS, forecastYears := 5 }

/-- Concrete submit inputs: stock tab with nothing selected. -/
def wInpStocksNone : SubmitInputs := { activeTab := Tab.stocks }

/-- Concrete submit inputs: LBO tab with nothing selected. -/
def wInpLboNone : SubmitInputs := { activeTab := Tab.lbo }

/-- Concrete submit inputs: upload tab with no file. -/
def wInpExcelNone : SubmitInputs := { activeTab := Tab.excel }

/-- Concrete submit inputs: M&A tab with the target missing. -/
def wInpMaMissing : SubmitInputs :=
  { activeTab := Tab.ma, acquirerStock := some wStockAcq }

/-- Concrete raw-data payload with a whitespace-only company name. -/
def wRawEmptyName : RawModelData :=
  { company_name := "  ", industry := "general", forecast_years := 5 }

/-- Concrete successful generation response. -/
def wRespOk : HttpResp := { ok := true, statusCode := 200, job_id := "job-42" }

/-- Concrete failed generation response. -/
def wRespFail : HttpResp := { ok := false, statusCode := 500, job_id := "" }

/-- Concrete completed job whose filename field is present but empty. -/
def wJobEmptyName : JobStatus :=
  { job_id := "j9", status := "completed", progress := 100, message := "done",
    download_url := some "/api/download/j9", filename := some "" }

/-- Concrete completed job with a proper filename. -/
def wJobDone : JobStatus :=
  { job_id := "j9", status := "completed", progress := 100, message := "done",
    download_url := some "/api/download/j9", filename := some "model_TCS.xlsx" }

/-- Concrete successful blob response. -/
def wBlobOk : HttpBlobResponse := { ok := true, statusCode := 200, blobContent := "bytes" }

/-- Concrete non-success blob response whose body is an error page. -/
def wBlobFail : HttpBlobResponse :=
  { ok := false, statusCode := 500, blobContent := "Internal Server Error" }

theorem pairMonoB_refl (o : Option JobStatus) : pairMonoB o o = true := by
  cases o with
  | none => rfl
  | some j => simp [pairMonoB]

theorem pollTick_timer_off (s : ClientState) (r : Except String JobStatus)
    (h : s.timerActive = false) : pollTick s r = s := by
  simp [pollTick, h]

theorem runTicks_timer_off (s : ClientState) (rs : List (Except String JobStatus))
    (h : s.timerActive = false) : runTicks s rs = s := by
  induction rs with
  | nil => rfl
  | cons r rs ih => simp [runTicks, pollTick_timer_off s r h, ih]

theorem respectsB_error (o : Option JobStatus) (e : String)
    (rs : List (Except String JobStatus)) :
    respectsB o (Except.error e :: rs) = respectsB o rs := by
  cases o <;> rfl

theorem respectsB_ok_tail (o : Option JobStatus) (st : JobStatus)
    (rs : List (Except String JobStatus))
    (h : respectsB o (Except.ok st :: rs) = true) :
    respectsB (some st) rs = true := by
  cases o with
  | none => exact h
  | some j =>
      simp only [respectsB, Bool.and_eq_true] at h
      exact h.2

theorem respectsB_ok_pair (o : Option JobStatus) (st : JobStatus)
    (rs : List (Except String JobStatus))
    (h : respectsB o (Except.ok st :: rs) = true) :
    pairMonoB o (some st) = true := by
  cases o with
  | none => rfl
  | some j =>
      simp only [respectsB, Bool.and_eq_true] at h
      simpa [pairMonoB] using h.1

theorem pollTick_jobStatus_error (s : ClientState) (e : String) :
    (pollTick s (Except.error e)).jobStatus = s.jobStatus := by
  cases h : s.timerActive <;> simp [pollTick, h]

theorem pollTick_timer_error (s : ClientState) (e : String) :
    (pollTick s (Except.error e)).timerActive = s.timerActive := by
  cases h : s.timerActive <;> simp [pollTick, h]

theorem pollTick_jobStatus_ok (s : ClientState) (st : JobStatus)
    (h : s.timerActive = true) :
    (pollTick s (Except.ok st)).jobStatus = some st := by
  cases ht : isTerminal st.status <;> simp [pollTick, h, ht]

theorem pollTick_ok_linked (s : ClientState) (st : JobStatus) :
    (pollTick s (Except.ok st)).timerActive = true →
    (pollTick s (Except.ok st)).jobStatus = some st := by
  cases h : s.timerActive with
  | false => rw [pollTick_timer_off s _ h]; intro hc; rw [h] at hc; cases hc
  | true => intro _; exact pollTick_jobStatus_ok s st h

theorem heldTrace_mono_aux (rs : List (Except String JobStatus)) :
    ∀ (s : ClientState) (ref : Option JobStatus),
      (s.timerActive = true → ref = s.jobStatus) →
      respectsB ref rs = true →
      monoTraceB (s.jobStatus :: heldTrace s rs) = true := by
  induction rs with
  | nil =>
      intro s ref _ _
      simp [heldTrace, monoTraceB]
  | cons r rs ih =>
      intro s ref hlink hresp
      simp only [heldTrace, monoTraceB, Bool.and_eq_true]
      cases r with
      | error e =>
          rw [respectsB_error] at hresp
          refine ⟨?_, ih (pollTick s (Except.error e)) ref ?_ hresp⟩
          · rw [pollTick_jobStatus_error]
            exact pairMonoB_refl _
          · intro h
            rw [pollTick_timer_error] at h
            rw [pollTick_jobStatus_error]
            exact hlink h
      | ok st =>
          refine ⟨?_, ih (pollTick s (Except.ok st)) (some st)
            (fun h => (pollTick_ok_linked s st h).symm) (respectsB_ok_tail ref st rs hresp)⟩
          cases hta : s.timerActive with
          | false =>
              rw [pollTick_timer_off s _ hta]
              exact pairMonoB_refl _
          | true =>
              rw [pollTick_jobStatus_ok s st hta, ← hlink hta]
              exact respectsB_ok_pair ref st rs hresp

/-- C1: once a poll response carries status completed or failed, the
repeating poll timer is cancelled and no further poll call is issued for
any number of subsequent timer ticks: every later state, in particular its
poll-call count, is frozen. -/
theorem poll_terminal_stops_polling (s : ClientState) (st : JobStatus)
    (rs : List (Except String JobStatus))
    (hactive : s.timerActive = true) (hterm : isTerminal st.status = true) :
    (pollTick s (Except.ok st)).timerActive = false ∧
    runTicks (pollTick s (Except.ok st)) rs = pollTick s (Except.ok st) ∧
    (runTicks (pollTick s (Except.ok st)) rs).pollCount =
      (pollTick s (Except.ok st)).pollCount := by
  have hstep : pollTick s (Except.ok st) =
      { s with pollCount := s.pollCount + 1, jobStatus := some st,
               isLoading := false, timerActive := false } := by
    simp [pollTick, hactive, hterm]
  have hoff : (pollTick s (Except.ok st)).timerActive = false := by rw [hstep]
  have hfrozen := runTicks_timer_off (pollTick s (Except.ok st)) rs hoff
  exact ⟨hoff, hfrozen, by rw [hfrozen]⟩

/-- Witness for poll_terminal_stops_polling at a concrete running job, a
completed response and two further ticks. -/
theorem poll_terminal_stops_polling_witness :
    (pollTick wStateRunning (Except.ok wCompleted)).timerActive = false ∧
    runTicks (pollTick wStateRunning (Except.ok wCompleted))
        [Except.error "late tick", Except.ok wStale] =
      pollTick wStateRunning (Except.ok wCompleted) ∧
    (runTicks (pollTick wStateRunning (Except.ok wCompleted))
        [Except.error "late tick", Except.ok wStale]).pollCount =
      (pollTick wStateRunning (Except.ok wCompleted)).pollCount :=
  poll_terminal_stops_polling wStateRunning wCompleted
    [Except.error "late tick", Except.ok wStale] rfl (by decide)

/-- C2: the sequence of job snapshots held by the client across successive
polls never decreases in progress while the snapshot status is
non-terminal, given (modelled from the spec, backend not under src/) that
the successive successful poll responses respect the backend progress
invariant. -/
theorem client_progress_monotone (s : ClientState)
    (rs : List (Except String JobStatus))
    (hresp : respectsB s.jobStatus rs = true) :
    monoTraceB (s.jobStatus :: heldTrace s rs) = true :=
  heldTrace_mono_aux rs s s.jobStatus (fun _ => rfl) hresp

/-- Witness for client_progress_monotone: a pending job polled through a
transport failure, two running updates and a completed response. -/
theorem client_progress_monotone_witness :
    respectsB wStatePending.jobStatus wRespList = true ∧
    monoTraceB (wStatePending.jobStatus :: heldTrace wStatePending wRespList) = true :=
  ⟨by decide, client_progress_monotone wStatePending wRespList (by decide)⟩

/-- C3: on a poll whose outbound status request fails, the error is logged
(errorLog grows), the held snapshot, user-facing error and timer are
unchanged, and a later successful poll updates the snapshot normally. -/
theorem poll_failure_retains_snapshot (s : ClientState) (e : String)
    (st2 : JobStatus) (hactive : s.timerActive = true) :
    pollTick s (Except.error e) =
      { s with pollCount := s.pollCount + 1, errorLog := s.errorLog + 1 } ∧
    (pollTick s (Except.error e)).jobStatus = s.jobStatus ∧
    (pollTick s (Except.error e)).error = s.error ∧
    (pollTick (pollTick s (Except.error e)) (Except.ok st2)).jobStatus = some st2 := by
  have hstep : pollTick s (Except.error e) =
      { s with pollCount := s.pollCount + 1, errorLog := s.errorLog + 1 } := by
    simp [pollTick, hactive]
  refine ⟨hstep, by rw [hstep], by rw [hstep], ?_⟩
  rw [hstep]
  cases hterm : isTerminal st2.status <;> simp [pollTick, hactive, hterm]

/-- Witness for poll_failure_retains_snapshot at a concrete running job. -/
theorem poll_failure_retains_snapshot_witness :
    pollTick wStateRunning (Except.error "ECONNRESET") =
      { wStateRunning with pollCount := 1, errorLog := 1 } ∧
    (pollTick wStateRunning (Except.error "ECONNRESET")).jobStatus =
      wStateRunning.jobStatus ∧
    (pollTick wStateRunning (Except.error "ECONNRESET")).error = wStateRunning.error ∧
    (pollTick (pollTick wStateRunning (Except.error "ECONNRESET"))
        (Except.ok wRun60)).jobStatus = some wRun60 :=
  poll_failure_retains_snapshot wStateRunning "ECONNRESET" wRun60 rfl

/-- C4: for every submission variant whose required fields are missing (no
stock for the stock / LBO variants, no file for the upload variant, a
missing acquirer or target for the M&A variant, an empty company name for
the raw-data variant of the older page), submit returns before the setters:
no network call is issued and the state, in particular the job snapshot, is
left untouched. -/
theorem submit_missing_fields_no_call :
    (∀ (inp : SubmitInputs) (st : ClientState) (resp : HttpResp),
        (inp.activeTab = Tab.stocks ∨ inp.activeTab = Tab.lbo) →
        inp.selectedStock = none →
        handleGenerate inp st resp = ([], st)) ∧
    (∀ (inp : SubmitInputs) (st : ClientState) (resp : HttpResp),
        inp.activeTab = Tab.excel → inp.excelFile = none →
        handleGenerate inp st resp = ([], st)) ∧
    (∀ (inp : SubmitInputs) (st : ClientState) (resp : HttpResp),
        inp.activeTab = Tab.ma →
        (inp.acquirerStock = none ∨ inp.targetStock = none) →
        handleGenerate inp st resp = ([], st)) ∧
    (∀ (ss : Option Stock) (fy : Nat) (rd : RawModelData) (st : ClientState)
        (resp : HttpResp),
        jsTrim rd.company_name = "" →
        handleGenerateOld OldTab.raw ss fy rd st resp = ([], st)) := by
  refine ⟨?_, ?_, ?_, ?_⟩
  · intro inp st resp htab hsel
    rcases htab with h | h <;> simp [handleGenerate, h, hsel]
  · intro inp st resp htab hfile
    simp [handleGenerate, htab, hfile]
  · intro inp st resp htab hmiss
    simp [handleGenerate, htab, hmiss]
  · intro ss fy rd st resp htrim
    simp [handleGenerateOld, htrim]

/-- Witness for submit_missing_fields_no_call: each missing-field variant at
a concrete state with an empty snapshot. -/
theorem submit_missing_fields_no_call_witness :
    handleGenerate wInpStocksNone {} wRespOk = ([], {}) ∧
    handleGenerate wInpLboNone {} wRespOk = ([], {}) ∧
    handleGenerate wInpExcelNone {} wRespOk = ([], {}) ∧
    handleGenerate wInpMaMissing {} wRespOk = ([], {}) ∧
    handleGenerateOld OldTab.raw none 5 wRawEmptyName {} wRespOk = ([], {}) :=
  ⟨submit_missing_fields_no_call.1 wInpStocksNone {} wRespOk (Or.inl rfl) rfl,
   submit_missing_fields_no_call.1 wInpLboNone {} wRespOk (Or.inr rfl) rfl,
   submit_missing_fields_no_call.2.1 wInpExcelNone {} wRespOk rfl rfl,
   submit_missing_fields_no_call.2.2.1 wInpMaMissing {} wRespOk rfl (Or.inr rfl),
   submit_missing_fields_no_call.2.2.2 none 5 wRawEmptyName {} wRespOk (by decide)⟩

/-- C5: submitting a stock-symbol request for TCS with forecastYears 5
issues exactly one POST to /api/model/generate whose body carries symbol
TCS, exchange NSE, forecast_years 5 and model_types three_statement and
dcf, and on success the local state becomes the pending snapshot with
status pending and progress 0. -/
theorem submit_tcs_scenario (inp : SubmitInputs) (st : ClientState)
    (nm sec : String) (sc : Option String) (resp : HttpResp)
    (htab : inp.activeTab = Tab.stocks)
    (hsel : inp.selectedStock =
      some { symbol := "TCS", name := nm, sector := sec, sector_code := sc })
    (hfy : inp.forecastYears = 5) (hok : resp.ok = true) :
    handleGenerate inp st resp =
      ([GenRequest.generate "TCS" "NSE" 5 ["three_statement", "dcf"]],
       { st with isLoading := true, error := none,
                 jobStatus := some (pendingSnapshot resp.job_id) }) ∧
    requestPath (GenRequest.generate "TCS" "NSE" 5 ["three_statement", "dcf"]) =
      "/api/model/generate" ∧
    (pendingSnapshot resp.job_id).status = "pending" ∧
    (pendingSnapshot resp.job_id).progress = 0 := by
  refine ⟨?_, rfl, rfl, rfl⟩
  simp [handleGenerate, submitBody, finishSubmit, htab, hsel, hfy, hok]

/-- Witness for submit_tcs_scenario at a fully concrete input. -/
theorem submit_tcs_scenario_witness :
    handleGenerate wInpStocksTCS {} wRespOk =
      ([GenRequest.generate "TCS" "NSE" 5 ["three_statement", "dcf"]],
       { isLoading := true, error := none,
         jobStatus := some (pendingSnapshot "job-42") }) ∧
    requestPath (GenRequest.generate "TCS" "NSE" 5 ["three_statement", "dcf"]) =
      "/api/model/generate" ∧
    (pendingSnapshot "job-42").status = "pending" ∧
    (pendingSnapshot "job-42").progress = 0 :=
  submit_tcs_scenario wInpStocksTCS {} "Tata Consultancy Services"
    "Information Technology" none wRespOk rfl rfl rfl rfl

/-- C6: whenever a submission issues its outbound call and the response is
non-success, the caught submission error message is set for display, the
job snapshot stays empty, loading stops, and the poll effect on the
resulting state installs no timer, so no polling begins. -/
theorem submit_failure_sets_error_no_poll (inp : SubmitInputs) (st : ClientState)
    (resp : HttpResp) (hok : resp.ok = false)
    (hne : (handleGenerate inp st resp).1 ≠ []) :
    ((handleGenerate inp st resp).2.error).isSome = true ∧
    (handleGenerate inp st resp).2.jobStatus = none ∧
    (handleGenerate inp st resp).2.isLoading = false ∧
    (pollEffect (handleGenerate inp st resp).2).timerActive = false := by
  rcases inp with ⟨tab, ss, fy, ef, ecn, ei, lbo, aq, tg, ma⟩
  cases tab <;> cases ss <;> cases ef <;> cases aq <;> cases tg <;>
    simp_all [handleGenerate, submitBody, finishSubmit, pollEffect]

/-- Witness for submit_failure_sets_error_no_poll: a stock submission whose
outbound call returns HTTP 500. -/
theorem submit_failure_sets_error_no_poll_witness :
    ((handleGenerate wInpStocksTCS {} wRespFail).2.error).isSome = true ∧
    (handleGenerate wInpStocksTCS {} wRespFail).2.jobStatus = none ∧
    (handleGenerate wInpStocksTCS {} wRespFail).2.isLoading = false ∧
    (pollEffect (handleGenerate wInpStocksTCS {} wRespFail).2).timerActive = false :=
  submit_failure_sets_error_no_poll wInpStocksTCS {} wRespFail rfl (by decide)

/-- C7 counterexample: a completed job whose filename field is present but
holds the empty string is saved under the default name, not under the
job filename as the claim states. -/
theorem download_filename_counterexample :
    wJobEmptyName.status = "completed" ∧
    wJobEmptyName.download_url = some "/api/download/j9" ∧
    wJobEmptyName.filename = some "" ∧
    (excelDownloadClick wJobEmptyName (Except.ok wBlobOk)).2 =
      some { name := "financial_model.xlsx", content := "bytes" } ∧
    (excelDownloadClick wJobEmptyName (Except.ok wBlobOk)).2 ≠
      some { name := "", content := "bytes" } := by
  refine ⟨rfl, rfl, rfl, rfl, ?_⟩
  decide

/-- C7 amended: for a job with a download URL and a 200-response blob, the
artifact is saved under the job filename when that field is present and
non-empty, and under the default name financial_model.xlsx when the field
is absent or empty. -/
theorem download_filename_amended :
    (∀ (js : JobStatus) (r : HttpBlobResponse) (u f : String),
        js.download_url = some u → js.filename = some f → f ≠ "" →
        (excelDownloadClick js (Except.ok r)).2 =
          some { name := f, content := r.blobContent }) ∧
    (∀ (js : JobStatus) (r : HttpBlobResponse) (u : String),
        js.download_url = some u →
        (js.filename = none ∨ js.filename = some "") →
        (excelDownloadClick js (Except.ok r)).2 =
          some { name := "financial_model.xlsx", content := r.blobContent }) := by
  constructor
  · intro js r u f hu hf hne
    simp [excelDownloadClick, downloadFileName, hu, hf, hne]
  · intro js r u hu hf
    rcases hf with h | h <;> simp [excelDownloadClick, downloadFileName, hu, h]

/-- Witness for download_filename_amended: both branches at concrete jobs. -/
theorem download_filename_amended_witness :
    (excelDownloadClick wJobDone (Except.ok wBlobOk)).2 =
      some { name := "model_TCS.xlsx", content := "bytes" } ∧
    (excelDownloadClick wJobEmptyName (Except.ok wBlobOk)).2 =
      some { name := "financial_model.xlsx", content := "bytes" } :=
  ⟨download_filename_amended.1 wJobDone wBlobOk "/api/download/j9" "model_TCS.xlsx"
     rfl rfl (by decide),
   download_filename_amended.2 wJobEmptyName wBlobOk "/api/download/j9"
     rfl (Or.inr rfl)⟩

/-- C8 counterexample: the Excel artifact download handler does not surface
a DownloadError on an unsuccessful fetch: a non-success response produces
no alert and its error body is even saved as the file, and a transport
failure produces no alert either. -/
theorem download_error_surfacing_counterexample :
    wBlobFail.ok = false ∧
    (excelDownloadClick wJobDone (Except.ok wBlobFail)).1 = [] ∧
    (excelDownloadClick wJobDone (Except.ok wBlobFail)).2 =
      some { name := "model_TCS.xlsx", content := "Internal Server Error" } ∧
    (excelDownloadClick wJobDone (Except.error "net down")).1 = [] :=
  ⟨rfl, rfl, rfl, rfl⟩

/-- C8 amended: for the PDF and PowerPoint export invocations an
unsuccessful fetch (transport failure or non-success response) fails with
the export error and is surfaced as exactly one transient alert with no
file saved, so the user may retry; the Excel artifact download handler,
however, shows no alert on failure: a transport failure is silently dropped
and a non-success response body is saved under the usual name. -/
theorem download_error_surfacing_amended :
    (∀ (fmt m : String), exportClick fmt (Except.error m) =
        ([exportAlertMsg fmt], none)) ∧
    (∀ (fmt : String) (r : HttpBlobResponse), r.ok = false →
        exportClick fmt (Except.ok r) = ([exportAlertMsg fmt], none)) ∧
    (∀ (js : JobStatus) (m : String),
        (excelDownloadClick js (Except.error m)).1 = []) ∧
    (∀ (js : JobStatus) (r : HttpBlobResponse) (u : String),
        js.download_url = some u → r.ok = false →
        excelDownloadClick js (Except.ok r) =
          ([], some { name := downloadFileName js.filename,
                      content := r.blobContent })) := by
  refine ⟨?_, ?_, ?_, ?_⟩
  · intro fmt m
    simp [exportClick, downloadExportFile]
  · intro fmt r hok
    simp [exportClick, downloadExportFile, hok]
  · intro js m
    cases h : js.download_url <;> simp [excelDownloadClick, h]
  · intro js r u hu hok
    simp [excelDownloadClick, hu]

/-- Witness for download_error_surfacing_amended at concrete failures. -/
theorem download_error_surfacing_amended_witness :
    exportClick "pdf" (Except.error "net down") =
      (["PDF export failed. Please try again."], none) ∧
    exportClick "pptx" (Except.ok wBlobFail) =
      (["PowerPoint export failed. Please try again."], none) ∧
    (excelDownloadClick wJobDone (Except.error "net down")).1 = [] ∧
    excelDownloadClick wJobDone (Except.ok wBlobFail) =
      ([], some { name := "model_TCS.xlsx", content := "Internal Server Error" }) :=
  ⟨download_error_surfacing_amended.1 "pdf" "net down",
   download_error_surfacing_amended.2.1 "pptx" wBlobFail rfl,
   download_error_surfacing_amended.2.2.1 wJobDone "net down",
   download_error_surfacing_amended.2.2.2 wJobDone wBlobFail "/api/download/j9" rfl rfl⟩

/-- C9: after every edit of the M&A stock-percentage input the cash
percentage is set to the complement, so percent_stock plus percent_cash
equals 1; the initial assumptions also satisfy the sum. -/
theorem ma_percent_sum_invariant :
    (∀ (ma : MAAssumptions) (input : Option ℚ),
        (editStockPercent ma input).percent_stock +
          (editStockPercent ma input).percent_cash = 1) ∧
    (MAAssumptions.percent_stock {} + MAAssumptions.percent_cash {} = 1) := by
  constructor
  · intro ma input
    simp [editStockPercent]
  · norm_num

theorem compareInv_add (l : List Stock) (s : Stock) (h : compareInv l) :
    compareInv (addCompareStock l s) := by
  unfold addCompareStock
  by_cases hc : ((l.find? (fun x => x.symbol == s.symbol)).isNone
      && decide (l.length < 5)) = true
  · rw [if_pos hc]
    simp only [Bool.and_eq_true, Option.isNone_iff_eq_none, decide_eq_true_eq] at hc
    obtain ⟨hfind, hlen⟩ := hc
    rw [List.find?_eq_none] at hfind
    have hnotin : s.symbol ∉ l.map (fun x => x.symbol) := by
      simp only [List.mem_map]
      rintro ⟨x, hx, hxs⟩
      exact hfind x hx (by simp [hxs])
    constructor
    · rw [List.map_append]
      simp only [List.map_cons, List.map_nil, List.nodup_append]
      refine ⟨h.1, List.nodup_singleton _, ?_⟩
      intro a ha hb
      simp only [List.mem_singleton] at hb
      exact hnotin (hb ▸ ha)
    · simp only [List.length_append, List.length_cons, List.length_nil]
      omega
  · rw [if_neg hc]
    exact h

theorem compareInv_remove (l : List Stock) (sym : String) (h : compareInv l) :
    compareInv (removeCompareStock l sym) := by
  constructor
  · exact h.1.sublist (List.Sublist.map _ (List.filter_sublist l))
  · exact le_trans (List.length_filter_le _ l) h.2

theorem compareInv_apply (l : List Stock) (op : CompareOp) (h : compareInv l) :
    compareInv (applyCompareOp l op) := by
  cases op with
  | add s => exact compareInv_add l s h
  | remove sym => exact compareInv_remove l sym h

theorem compareInv_foldl (ops : List CompareOp) :
    ∀ l, compareInv l → compareInv (ops.foldl applyCompareOp l) := by
  induction ops with
  | nil => intro l h; exact h
  | cons op ops ih =>
      intro l h
      exact ih (applyCompareOp l op) (compareInv_apply l op h)

/-- C10: any compare selection list reachable from the empty list through
the guarded add button and the filtering remove button never holds two
stocks with the same symbol and never holds more than 5 stocks. -/
theorem compare_list_invariant (ops : List CompareOp) :
    ((runCompareOps ops).map (fun s => s.symbol)).Nodup ∧
    (runCompareOps ops).length ≤ 5 :=
  compareInv_foldl ops [] ⟨List.nodup_nil, by simp⟩
